import Mathlib

/-!
Verification of the authentication and access-control gateway of the
Ashraf-Furnitures storefront.

The embedding models:
* the Firestore documents used by the auth service (`admins` and `auditLogs`
  collections) as association lists from document id to record;
* `loginWithEmail`, `loginWithGoogle`, `createAuditLog` and `logout` from
  `firebase/authService` (src/unnamed/part_007);
* the client-side rate limiter of `pages/Login.tsx`
  (`checkRateLimit` / `recordLoginAttempt` / `clearLoginAttempts` and the
  `handleLogin` control flow);
* the zustand auth store of the session lifecycle (src/unnamed/part_004):
  `setupTokenRefresh` / `clearTokenRefresh` / `logout` as a state machine
  over client state with an explicit set of live interval timers.

Timestamps are milliseconds since the epoch, modelled as `Nat`.
-/

namespace AshrafAuth

/-- Admin roles, from the `AdminRole` union type in the auth service. -/
inductive AdminRole
| admin
| editor
| viewer
deriving DecidableEq, Repr

/-- An `admins/{uid}` Firestore document (`AdminUser` in the auth service).
The document id (the Firebase Auth uid) is the association-list key, not a
field.  `Timestamp | Date | null` fields become `Option Nat`. -/
structure AdminUser where
  email : String
  name : String
  role : AdminRole
  isActive : Bool
  lastLogin : Option Nat
  loginAttempts : Nat
  isLocked : Bool
  lockedUntil : Option Nat
  createdAt : Nat
  updatedAt : Nat
deriving DecidableEq, Repr

/-- Audit entry status, from the `'success' | 'failed' | 'blocked'` union. -/
inductive AuditStatus
| success
| failed
| blocked
deriving DecidableEq, Repr

/-- An `auditLogs/{Date.now()}-{email}` Firestore document written by
`createAuditLog`.  The browser-only fields (`ipAddress`, `userAgent`) carry
no information in the model and are omitted. -/
structure AuditRecord where
  action : String
  email : String
  status : AuditStatus
  reason : String
  timestamp : Nat
deriving DecidableEq, Repr

/-- Firestore `getDoc`: first binding of the document id in the collection. -/
def getDocList {α : Type} : List (String × α) → String → Option α
| [], _ => none
| (k1, v1) :: tl, k => if k1 = k then some v1 else getDocList tl k

/-- Firestore `setDoc`: create the document or overwrite it wholesale if a
document with that id already exists. -/
def setDocList {α : Type} : List (String × α) → String → α → List (String × α)
| [], k, v => [(k, v)]
| (k1, v1) :: tl, k, v => if k1 = k then (k, v) :: tl else (k1, v1) :: setDocList tl k v

/-- Firestore `updateDoc` restricted to the fields the service touches:
apply `f` to the document if present (all call sites in the service follow
an existence check). -/
def updateDocList {α : Type} : List (String × α) → String → (α → α) → List (String × α)
| [], _, _ => []
| (k1, v1) :: tl, k, f => if k1 = k then (k, f v1) :: tl else (k1, v1) :: updateDocList tl k f

/-- The two Firestore collections the auth service reads and writes. -/
structure Firestore where
  admins : List (String × AdminUser)
  auditLogs : List (String × AuditRecord)
deriving DecidableEq, Repr

/-- World state threaded through the service: the database, the Firebase
Auth session (`auth.currentUser`, as uid and email), and a chronological
log of every `createAuditLog` call (to count writes independently of the
overwriting `setDoc` semantics). -/
structure World where
  db : Firestore
  authUser : Option (String × String)
  auditWrites : List AuditRecord
deriving DecidableEq, Repr

/-- Firebase `signOut`. -/
def signOut (w : World) : World := { w with authUser := none }

/-- Document id used by `createAuditLog`: the template
`Date.now()-email` rendered as a string. -/
def auditKey (now : Nat) (email : String) : String :=
  toString now ++ "-" ++ email

/-- `createAuditLog` from the auth service: `setDoc` into `auditLogs` under
the millisecond-plus-email key, also recorded in the write log. -/
def createAuditLog (w : World) (action email : String) (status : AuditStatus)
    (reason : String) (now : Nat) : World :=
  let entry : AuditRecord :=
    { action := action, email := email, status := status, reason := reason, timestamp := now }
  { w with
      db := { w.db with auditLogs := setDocList w.db.auditLogs (auditKey now email) entry },
      auditWrites := w.auditWrites ++ [entry] }

/-- Update one admin document in place. -/
def updateAdminDoc (w : World) (uid : String) (f : AdminUser → AdminUser) : World :=
  { w with db := { w.db with admins := updateDocList w.db.admins uid f } }

/-- Create or overwrite one admin document. -/
def setAdminDoc (w : World) (uid : String) (a : AdminUser) : World :=
  { w with db := { w.db with admins := setDocList w.db.admins uid a } }

/-- Outcome of `signInWithEmailAndPassword` at the external Identity
Provider: success with the Firebase user's uid and email, a credential
failure (`auth/wrong-password` / `auth/invalid-credential`), or any other
error. -/
inductive AuthResult
| ok (uid : String) (email : String)
| wrongPassword
| otherError (msg : String)
deriving DecidableEq, Repr

/-- The external Firebase Auth surface consumed by the service. -/
structure FirebaseAuthApi where
  signIn : String → String → AuthResult
  idToken : String → String

/-- Typed errors thrown by `loginWithEmail`, one per `throw` site. -/
inductive LoginError
| accessDenied (allowed : String)
| notAdmin
| inactive
| locked (remainingMinutes : Nat)
| lockedOut
| invalidWithRemaining (left : Nat)
| invalid
| other (msg : String)
deriving DecidableEq, Repr

/-- The `error.message` string of each thrown error, as built in the source. -/
def LoginError.message : LoginError → String
| .accessDenied al => "Access denied. Only " ++ al ++ " can login."
| .notAdmin => "User is not an admin"
| .inactive => "Admin account is inactive"
| .locked m => "Account is locked. Try again in " ++ toString m ++ " minutes"
| .lockedOut => "Too many failed login attempts. Account locked for 15 minutes"
| .invalidWithRemaining n => "Invalid email or password. " ++ toString n ++ " attempts remaining"
| .invalid => "Invalid email or password"
| .other msg => msg

/-- `LoginResponse` returned on success. -/
structure LoginResponse where
  user : AdminUser
  token : String
deriving DecidableEq, Repr

/-- The hard-coded allow-list email of `loginWithEmail`. -/
def allowedAdminEmail : String := "admin@ashraffurnitures.com"

/-- `Math.ceil (a / b)` on naturals. -/
def ceilDiv (a b : Nat) : Nat := (a + b - 1) / b

/-- The tail of the email-login success path: reset `loginAttempts`, stamp
`lastLogin`, write the `login_success` audit entry and return the response. -/
def emailSuccessPath (api : FirebaseAuthApi) (w : World) (uid email : String)
    (adminData : AdminUser) (now : Nat) : Except LoginError LoginResponse × World :=
  let w1 := updateAdminDoc w uid
    (fun a => { a with loginAttempts := 0, lastLogin := some now, updatedAt := now })
  let w2 := createAuditLog w1 "login_success" email .success "Successful login" now
  (.ok { user := { adminData with loginAttempts := 0, lastLogin := some now },
         token := api.idToken uid }, w2)

/-- The `try` block of `loginWithEmail` after a successful Firebase
sign-in: allow-list check, admin-document fetch, active check, lock check
with lazy unlock, then the success path. -/
def emailTryBody (api : FirebaseAuthApi) (w : World) (uid uemail email : String)
    (now : Nat) : Except LoginError LoginResponse × World :=
  let w0 := { w with authUser := some (uid, uemail) }
  if email = allowedAdminEmail then
    match getDocList w0.db.admins uid with
    | none =>
      let w1 := signOut w0
      (.error .notAdmin,
        createAuditLog w1 "login_attempt" email .failed "User not found in admins collection" now)
    | some adminData =>
      if adminData.isActive then
        match adminData.isLocked, adminData.lockedUntil with
        | true, some u =>
          if now < u then
            let m := ceilDiv (u - now) 60000
            let w1 := signOut w0
            (.error (.locked m),
              createAuditLog w1 "login_attempt" email .blocked
                ("Account locked for " ++ toString m ++ " minutes") now)
          else
            let w1 := updateAdminDoc w0 uid
              (fun a => { a with isLocked := false, lockedUntil := none,
                                 loginAttempts := 0, updatedAt := now })
            emailSuccessPath api w1 uid email adminData now
        | _, _ => emailSuccessPath api w0 uid email adminData now
      else
        let w1 := signOut w0
        (.error .inactive,
          createAuditLog w1 "login_attempt" email .blocked "Account inactive" now)
  else
    let w1 := signOut w0
    (.error (.accessDenied allowedAdminEmail),
      createAuditLog w1 "login_attempt" email .blocked
        ("Access denied. Only " ++ allowedAdminEmail ++ " can login") now)

/-- The `catch` handler's wrong-password branch.  The source fetches
`doc(db, 'admins', email)` — the document id is the raw login email — and
increments `loginAttempts`, locking for 15 minutes once the count reaches 5;
with no such document it logs and throws the generic credential error. -/
def handleWrongPassword (w : World) (email : String) (now : Nat) :
    Except LoginError LoginResponse × World :=
  match getDocList w.db.admins email with
  | some adminData =>
    let loginAttempts := adminData.loginAttempts + 1
    if 5 ≤ loginAttempts then
      let w1 := updateAdminDoc w email
        (fun a => { a with isLocked := true, lockedUntil := some (now + 15 * 60 * 1000),
                           loginAttempts := loginAttempts, updatedAt := now })
      (.error .lockedOut,
        createAuditLog w1 "login_attempt" email .blocked
          "Account locked after 5 failed attempts" now)
    else
      let w1 := updateAdminDoc w email
        (fun a => { a with loginAttempts := loginAttempts, updatedAt := now })
      (.error (.invalidWithRemaining (5 - loginAttempts)),
        createAuditLog w1 "login_attempt" email .failed
          ("Invalid password (" ++ toString (5 - loginAttempts) ++ " attempts left)") now)
  | none =>
    (.error .invalid,
      createAuditLog w "login_attempt" email .failed "Invalid credentials" now)

/-- `loginWithEmail` from the auth service.  Errors thrown inside the `try`
block carry no Firebase error code, so the `catch` falls through to the
catch-all branch that writes a second `login_attempt`/`failed` audit entry
with the error message before rethrowing. -/
def loginWithEmail (api : FirebaseAuthApi) (w : World) (email password : String)
    (now : Nat) : Except LoginError LoginResponse × World :=
  match api.signIn email password with
  | .ok uid uemail =>
    match emailTryBody api w uid uemail email now with
    | (.ok resp, w') => (.ok resp, w')
    | (.error e, w') =>
      (.error e, createAuditLog w' "login_attempt" email .failed e.message now)
  | .wrongPassword => handleWrongPassword w email now
  | .otherError msg =>
    (.error (.other msg), createAuditLog w "login_attempt" email .failed msg now)

/-- Outcome of the `signInWithPopup` Google OAuth popup: success carrying
the Firebase user's uid, email and display name, a user-cancelled popup,
or any other error. -/
inductive GoogleResult
| ok (uid : String) (email : String) (displayName : String)
| popupClosed
| otherError (msg : String)
deriving DecidableEq, Repr

/-- Typed errors thrown by `loginWithGoogle`, one per `throw` site. -/
inductive GoogleError
| accessDenied (allowed : String)
| inactive
| cancelled
| other (msg : String)
deriving DecidableEq, Repr

/-- The `error.message` string of each thrown `loginWithGoogle` error. -/
def GoogleError.message : GoogleError → String
| .accessDenied al => "Access denied. Only " ++ al ++ " can login."
| .inactive => "Admin account is inactive"
| .cancelled => "Sign-in cancelled. Please try again."
| .other msg => msg

/-- JS `firebaseUser.email || 'unknown'` as used in the Google audit calls. -/
def emailOrUnknown (email : String) : String :=
  if email = "" then "unknown" else email

/-- JS `firebaseUser.displayName || 'Admin User'`. -/
def displayNameOrDefault (name : String) : String :=
  if name = "" then "Admin User" else name

/-- The admin document `loginWithGoogle` auto-creates on a first-time
federated login (`serverTimestamp()` resolves to the current time). -/
def firstTimeGoogleAdmin (gmail name : String) (now : Nat) : AdminUser :=
  { email := gmail
    name := displayNameOrDefault name
    role := .admin
    isActive := true
    loginAttempts := 0
    isLocked := false
    lockedUntil := none
    lastLogin := some now
    createdAt := now
    updatedAt := now }

/-- The `try` block of `loginWithGoogle` after a successful popup:
env-configured allow-list check, admin-document fetch with auto-provisioning
when absent, active check, last-login stamp.  There is no lock check on this
path. -/
def googleTryBody (api : FirebaseAuthApi) (w : World) (uid gmail name : String)
    (envAdminEmail : Option String) (now : Nat) : Except GoogleError LoginResponse × World :=
  let w0 := { w with authUser := some (uid, gmail) }
  let blockedByEnv : Bool :=
    match envAdminEmail with
    | some al => decide (gmail ≠ al)
    | none => false
  if blockedByEnv then
    let al := envAdminEmail.getD ""
    let w1 := signOut w0
    (.error (.accessDenied al),
      createAuditLog w1 "google_oauth" (emailOrUnknown gmail) .blocked
        ("Email not allowed. Only " ++ al ++ " can login") now)
  else
    match getDocList w0.db.admins uid with
    | none =>
      let newAdmin := firstTimeGoogleAdmin gmail name now
      let w1 := setAdminDoc w0 uid newAdmin
      let w2 := createAuditLog w1 "google_oauth" (emailOrUnknown gmail) .success
        "First-time Google OAuth login" now
      (.ok { user := newAdmin, token := api.idToken uid }, w2)
    | some adminData =>
      if adminData.isActive then
        let w1 := updateAdminDoc w0 uid
          (fun a => { a with lastLogin := some now, updatedAt := now })
        let w2 := createAuditLog w1 "google_oauth" (emailOrUnknown gmail) .success
          "Successful Google OAuth login" now
        (.ok { user := { adminData with lastLogin := some now },
               token := api.idToken uid }, w2)
      else
        let w1 := signOut w0
        (.error .inactive,
          createAuditLog w1 "google_oauth" (emailOrUnknown gmail) .blocked
            "Account inactive" now)

/-- `loginWithGoogle` from the auth service.  `VITE_ADMIN_EMAIL` is the
environment-configured allow-list value (`none` when unset).  A closed
popup is rethrown as the cancelled error before any audit write; every
other thrown error reaches the catch-all that writes a second
`google_oauth`/`failed` audit entry under the identity `unknown`. -/
def loginWithGoogle (api : FirebaseAuthApi) (popup : GoogleResult)
    (envAdminEmail : Option String) (w : World) (now : Nat) :
    Except GoogleError LoginResponse × World :=
  match popup with
  | .popupClosed => (.error .cancelled, w)
  | .otherError msg =>
    (.error (.other msg), createAuditLog w "google_oauth" "unknown" .failed msg now)
  | .ok uid gmail name =>
    match googleTryBody api w uid gmail name envAdminEmail now with
    | (.ok resp, w') => (.ok resp, w')
    | (.error e, w') =>
      (.error e, createAuditLog w' "google_oauth" "unknown" .failed e.message now)

/-- `logout` from the auth service: write one `logout` audit entry when a
signed-in Firebase user with a non-empty email exists, then sign out. -/
def serviceLogout (w : World) (now : Nat) : World :=
  match w.authUser with
  | some (_, em) =>
    if em = "" then signOut w
    else signOut (createAuditLog w "logout" em .success "User logged out" now)
  | none => signOut w

/-- One record of the client-local `login_attempts` list in localStorage. -/
structure LoginAttempt where
  timestamp : Nat
  email : String
deriving DecidableEq, Repr

/-- `RATE_LIMIT_MAX_ATTEMPTS` from `Login.tsx`. -/
def rateLimitMaxAttempts : Nat := 5

/-- `RATE_LIMIT_WINDOW_MS` from `Login.tsx`: 15 minutes. -/
def rateLimitWindowMs : Nat := 15 * 60 * 1000

/-- `checkRateLimit` from `Login.tsx`: a pure read over the stored attempt
list.  Entries older than the window are discarded, the remainder filtered
by email; at ≥ 5 matches the check refuses with
`remainingTime = window - (now - emailAttempts[0].timestamp)` computed from
the FIRST matching entry in storage order. -/
def checkRateLimit (attempts : List LoginAttempt) (email : String) (now : Nat) :
    Bool × Option Int :=
  let recentAttempts := attempts.filter
    (fun a => (now : Int) - (a.timestamp : Int) < (rateLimitWindowMs : Int))
  let emailAttempts := recentAttempts.filter (fun a => a.email = email)
  if rateLimitMaxAttempts ≤ emailAttempts.length then
    match emailAttempts with
    | oldestAttempt :: _ =>
      (false, some ((rateLimitWindowMs : Int) - ((now : Int) - (oldestAttempt.timestamp : Int))))
    | [] => (true, none)
  else
    (true, none)

/-- `recordLoginAttempt` from `Login.tsx`: append the new attempt, then
prune entries older than the window. -/
def recordLoginAttempt (attempts : List LoginAttempt) (email : String) (now : Nat) :
    List LoginAttempt :=
  (attempts ++ [({ timestamp := now, email := email } : LoginAttempt)]).filter
    (fun a => (now : Int) - (a.timestamp : Int) < (rateLimitWindowMs : Int))

/-- `clearLoginAttempts` from `Login.tsx`: drop every attempt for the email. -/
def clearLoginAttempts (attempts : List LoginAttempt) (email : String) :
    List LoginAttempt :=
  attempts.filter (fun a => a.email ≠ email)

/-- JS `String.prototype.trim` over the character list. -/
def jsTrim (s : String) : String :=
  ⟨((s.data.dropWhile Char.isWhitespace).reverse.dropWhile Char.isWhitespace).reverse⟩

/-- Outcome of one submission of the login form (`handleLogin`). -/
inductive HandleOutcome
| emptyEmail
| emptyPassword
| rateLimited (remainingTime : Int)
| loginOk
| loginFailed (e : LoginError)
deriving DecidableEq, Repr

/-- `handleLogin` from `Login.tsx`: input validation, advisory rate-limit
check (early return, no audit write), attempt recording, the Firebase
login, and clearing of the attempt list on success. -/
def handleLogin (api : FirebaseAuthApi) (w : World) (attempts : List LoginAttempt)
    (email password : String) (now : Nat) :
    HandleOutcome × World × List LoginAttempt :=
  if jsTrim email = "" then (.emptyEmail, w, attempts)
  else if password = "" then (.emptyPassword, w, attempts)
  else
    match checkRateLimit attempts email now with
    | (false, rem) => (.rateLimited (rem.getD 0), w, attempts)
    | (true, _) =>
      let attempts1 := recordLoginAttempt attempts email now
      match loginWithEmail api w email password now with
      | (.ok _, w') => (.loginOk, w', clearLoginAttempts attempts1 email)
      | (.error e, w') => (.loginFailed e, w', attempts1)

/-- Client session state of the zustand auth store (src/unnamed/part_004),
together with an explicit runtime view of interval timers:
`refreshInterval` is the module-level `tokenRefreshInterval` variable,
`liveTimers` the ids of intervals created by `setInterval` and not yet
cleared, `nextTimerId` the id `setInterval` hands out next, and
`refreshCount` the number of times the refresh callback has run. -/
structure ClientState where
  user : Option String
  token : Option Nat
  isAuthenticated : Bool
  refreshInterval : Option Nat
  liveTimers : List Nat
  nextTimerId : Nat
  refreshCount : Nat
deriving DecidableEq, Repr

/-- `clearTokenRefresh`: clear the stored interval, if any, and null the
variable. -/
def clearTokenRefresh (s : ClientState) : ClientState :=
  match s.refreshInterval with
  | some id => { s with liveTimers := s.liveTimers.filter (fun t => t ≠ id),
                        refreshInterval := none }
  | none => s

/-- `setupTokenRefresh`: clear the existing interval, if any, then create a
fresh 45-minute interval and remember its id. -/
def setupTokenRefresh (s : ClientState) : ClientState :=
  let s1 :=
    match s.refreshInterval with
    | some id => { s with liveTimers := s.liveTimers.filter (fun t => t ≠ id) }
    | none => s
  { s1 with refreshInterval := some s1.nextTimerId,
            liveTimers := s1.nextTimerId :: s1.liveTimers,
            nextTimerId := s1.nextTimerId + 1 }

/-- Events acting on the client auth store: a successful `login` or
`loginWithGoogle` action, a failed one, the `logout` action, the
`onAuthChange` subscription firing with a signed-in or signed-out user,
and the runtime firing an interval timer. -/
inductive ClientOp
| loginOk (u : String) (tok : Nat)
| loginFailed
| logout
| authSignedIn (u : String) (tok : Nat)
| authSignedOut
| timerFire (id : Nat) (tok : Nat)
deriving DecidableEq, Repr

/-- Is the event one that establishes a session (and so re-arms the
refresh timer)? -/
def ClientOp.isLoginLike : ClientOp → Bool
| .loginOk _ _ => true
| .authSignedIn _ _ => true
| _ => false

/-- One step of the client auth store.  `logout` clears the refresh timer
first, then the Firebase sign-out resolves and the local state is
discarded; `onAuthChange` with no user does the same; a timer only fires
while its id is still live, and its callback installs a fresh token. -/
def clientStep (s : ClientState) : ClientOp → ClientState
| .loginOk u tok =>
  setupTokenRefresh { s with user := some u, token := some tok, isAuthenticated := true }
| .loginFailed => s
| .logout =>
  let s1 := clearTokenRefresh s
  { s1 with user := none, token := none, isAuthenticated := false }
| .authSignedIn u tok =>
  setupTokenRefresh { s with user := some u, token := some tok, isAuthenticated := true }
| .authSignedOut =>
  let s1 := clearTokenRefresh s
  { s1 with user := none, token := none, isAuthenticated := false }
| .timerFire id tok =>
  if s.liveTimers.contains id then
    { s with token := some tok, refreshCount := s.refreshCount + 1 }
  else s

/-- Client state before any event: signed out and no timer. -/
def initialClientState : ClientState :=
  { user := none, token := none, isAuthenticated := false,
    refreshInterval := none, liveTimers := [], nextTimerId := 0, refreshCount := 0 }

/-- Run a list of client events from the initial state. -/
def clientRun (ops : List ClientOp) : ClientState :=
  ops.foldl clientStep initialClientState

/-- Authoritative Firebase token lifetime: one hour, per the comment in
`setupTokenRefresh` ("Firebase tokens expire after 1 hour"). -/
def tokenLifetimeMs : Nat := 60 * 60 * 1000

/-- The `setInterval` delay in `setupTokenRefresh`: 45 minutes. -/
def refreshDelayMs : Nat := 45 * 60 * 1000

/-- The proactive-refresh buffer the spec describes: 15 minutes. -/
def refreshBufferMs : Nat := 15 * 60 * 1000

/-- The instant the first interval tick fires for a session issued at `t0`. -/
def firstRefreshTime (t0 : Nat) : Nat := t0 + refreshDelayMs

/-- Issue time of the token held at time `t ≥ t0` under normal operation:
the session start or the latest 45-minute interval tick not after `t`. -/
def lastTokenIssueTime (t0 t : Nat) : Nat :=
  t0 + refreshDelayMs * ((t - t0) / refreshDelayMs)

/-- Expiry of the token held at time `t`: its issue time plus one hour. -/
def availableTokenExpiry (t0 t : Nat) : Nat :=
  lastTokenIssueTime t0 t + tokenLifetimeMs

/-- The rate-limit check as the specification words it (for comparison with
`checkRateLimit`): discard entries older than the window, count matching
entries, and at ≥ 5 matches compute `retryAfter` from the OLDEST matching
entry, i.e. the minimal timestamp among the matches. -/
def specRateCheck (attempts : List LoginAttempt) (email : String) (now : Nat) :
    Bool × Option Int :=
  let recent := attempts.filter
    (fun a => (now : Int) - (a.timestamp : Int) < (rateLimitWindowMs : Int))
  let matching := recent.filter (fun a => a.email = email)
  if rateLimitMaxAttempts ≤ matching.length then
    match matching with
    | x :: xs =>
      let oldestTs := xs.foldl (fun m a => min m a.timestamp) x.timestamp
      (false, some ((rateLimitWindowMs : Int) - ((now : Int) - (oldestTs : Int))))
    | [] => (true, none)
  else
    (true, none)

/-- Did the call succeed (JS: the promise resolved rather than rejected)? -/
def resultIsOk {ε α : Type} : Except ε α → Bool
| .ok _ => true
| .error _ => false

/-! ### Shared concrete fixtures -/

/-- A baseline active, unlocked admin account matching the seeded document
of the repository's setup guides (document id `uid-1`). -/
def sampleAccount : AdminUser :=
  { email := allowedAdminEmail, name := "Admin", role := .admin, isActive := true,
    lastLogin := none, loginAttempts := 0, isLocked := false, lockedUntil := none,
    createdAt := 0, updatedAt := 0 }

/-- The sample account under an active 15-minute lock set at time 0. -/
def lockedAccount : AdminUser :=
  { sampleAccount with isLocked := true, lockedUntil := some 900000 }

/-- The sample account with three recorded failed attempts. -/
def attemptsAccount : AdminUser :=
  { sampleAccount with loginAttempts := 3 }

/-- A world whose `admins` collection holds the given documents and whose
audit ledger is empty. -/
def mkWorld (accounts : List (String × AdminUser)) : World :=
  { db := { admins := accounts, auditLogs := [] }, authUser := none, auditWrites := [] }

/-- Identity provider that accepts any credentials as `uid-1`. -/
def apiUid1 : FirebaseAuthApi :=
  { signIn := fun _ _ => .ok "uid-1" allowedAdminEmail, idToken := fun _ => "tok" }

/-- Identity provider that rejects any credentials as a wrong password. -/
def apiReject : FirebaseAuthApi :=
  { signIn := fun _ _ => .wrongPassword, idToken := fun _ => "tok" }

/-- Identity provider that verifies a non-allow-listed user `uid-2`. -/
def apiOther : FirebaseAuthApi :=
  { signIn := fun _ _ => .ok "uid-2" "other@gmail.com", idToken := fun _ => "tok" }

/-- Five recent rate-limiter entries for the admin email. -/
def fiveAttempts : List LoginAttempt :=
  [⟨100, allowedAdminEmail⟩, ⟨200, allowedAdminEmail⟩, ⟨300, allowedAdminEmail⟩,
   ⟨400, allowedAdminEmail⟩, ⟨500, allowedAdminEmail⟩]

/-! ### Association-list lemmas for the Firestore primitives -/

theorem getDocList_setDocList_self {α : Type} (l : List (String × α)) (k : String) (v : α) :
    getDocList (setDocList l k v) k = some v := by
  induction l with
  | nil => simp [setDocList, getDocList]
  | cons p tl ih =>
    obtain ⟨k1, v1⟩ := p
    by_cases h : k1 = k
    · simp [setDocList, getDocList, h]
    · simp [setDocList, getDocList, h, ih]

theorem getDocList_setDocList_ne {α : Type} (l : List (String × α)) (k k' : String) (v : α)
    (h : k' ≠ k) : getDocList (setDocList l k' v) k = getDocList l k := by
  induction l with
  | nil => simp [setDocList, getDocList, h]
  | cons p tl ih =>
    obtain ⟨k1, v1⟩ := p
    by_cases h1 : k1 = k'
    · subst h1
      simp [setDocList, getDocList, h]
    · by_cases h2 : k1 = k
      · simp [setDocList, getDocList, h1, h2, Ne.symm h]
      · simp [setDocList, getDocList, h1, h2, ih]

theorem getDocList_updateDocList_self {α : Type} (l : List (String × α)) (k : String)
    (f : α → α) : getDocList (updateDocList l k f) k = (getDocList l k).map f := by
  induction l with
  | nil => simp [updateDocList, getDocList]
  | cons p tl ih =>
    obtain ⟨k1, v1⟩ := p
    by_cases h : k1 = k
    · simp [updateDocList, getDocList, h]
    · simp [updateDocList, getDocList, h, ih]

/-! ### Claim C1 -/

/-- One wrong-password login attempt for the allow-listed email. -/
def c1FailStep (w : World) (now : Nat) : World :=
  (loginWithEmail apiReject w allowedAdminEmail "wrong-password" now).2

/-- The world after five consecutive wrong-password attempts against the
seeded account stored under its uid. -/
def c1AfterFive : World :=
  c1FailStep (c1FailStep (c1FailStep (c1FailStep
    (c1FailStep (mkWorld [("uid-1", sampleAccount)]) 1000) 2000) 3000) 4000) 5000

/-- C1: the claim says five consecutive invalid-credential attempts lock the
account (isLocked, lockedUntil = now + 15 min) and every further attempt,
even with correct credentials, fails with Locked.  The code's failure
handler reads document `admins/{email}` while accounts are stored under
`admins/{uid}` (as every creation path and the setup guides do), so after
five consecutive wrong-password logins the stored account is unchanged —
no counter increment, no lock — and a sixth login with correct credentials
succeeds. -/
theorem c1_lockout_never_fires :
    getDocList c1AfterFive.db.admins "uid-1" = some sampleAccount ∧
    (loginWithEmail apiUid1 c1AfterFive allowedAdminEmail "correct-password" 6000).1 =
      .ok { user := { sampleAccount with lastLogin := some 6000 }, token := "tok" } := by
  constructor <;> rfl

/-! ### Claim C5 -/

/-- Two audit appends for the same identity, the first at millisecond 1000,
the second at millisecond `t2`. -/
def c5Pair (t2 : Nat) : World :=
  createAuditLog
    (createAuditLog (mkWorld []) "login_attempt" "a@x.com" .blocked "first entry" 1000)
    "login_attempt" "a@x.com" .failed "second entry" t2

/-- C5 (counterexample): two appends for the same identity in the same
millisecond share the document id `1000-a@x.com`, so the ledger holds a
single record afterwards and its content is the second entry — the first
entry was overwritten, refuting write-once for every pair of appends. -/
theorem c5_counterexample :
    (c5Pair 1000).db.auditLogs.length = 1 ∧
    getDocList (c5Pair 1000).db.auditLogs (auditKey 1000 "a@x.com") =
      some { action := "login_attempt", email := "a@x.com", status := .failed,
             reason := "second entry", timestamp := 1000 } := by
  constructor <;> rfl

/-- C5 (amended): an audit append never mutates an entry written under a
different document id `timestamp-email`: the second append leaves the first
entry untouched and both records are retrievable; only two appends sharing
millisecond and email collide on one document id. -/
theorem c5_distinct_keys_write_once (w : World)
    (a1 e1 r1 a2 e2 r2 : String) (s1 s2 : AuditStatus) (t1 t2 : Nat)
    (hk : auditKey t1 e1 ≠ auditKey t2 e2) :
    getDocList (createAuditLog (createAuditLog w a1 e1 s1 r1 t1) a2 e2 s2 r2 t2).db.auditLogs
        (auditKey t1 e1)
      = getDocList (createAuditLog w a1 e1 s1 r1 t1).db.auditLogs (auditKey t1 e1) ∧
    getDocList (createAuditLog w a1 e1 s1 r1 t1).db.auditLogs (auditKey t1 e1)
      = some { action := a1, email := e1, status := s1, reason := r1, timestamp := t1 } ∧
    getDocList (createAuditLog (createAuditLog w a1 e1 s1 r1 t1) a2 e2 s2 r2 t2).db.auditLogs
        (auditKey t2 e2)
      = some { action := a2, email := e2, status := s2, reason := r2, timestamp := t2 } := by
  refine ⟨?_, ?_, ?_⟩
  · simp [createAuditLog, getDocList_setDocList_ne _ _ _ _ (Ne.symm hk)]
  · simp [createAuditLog, getDocList_setDocList_self]
  · simp [createAuditLog, getDocList_setDocList_self]

/-- Witness for C5's amended theorem: appends one millisecond apart keep
both records. -/
theorem c5_amended_witness :
    auditKey 1000 "a@x.com" ≠ auditKey 1001 "a@x.com" ∧
    getDocList (c5Pair 1001).db.auditLogs (auditKey 1000 "a@x.com") =
      some { action := "login_attempt", email := "a@x.com", status := .blocked,
             reason := "first entry", timestamp := 1000 } ∧
    getDocList (c5Pair 1001).db.auditLogs (auditKey 1001 "a@x.com") =
      some { action := "login_attempt", email := "a@x.com", status := .failed,
             reason := "second entry", timestamp := 1001 } := by
  have h := c5_distinct_keys_write_once (mkWorld []) "login_attempt" "a@x.com" "first entry"
    "login_attempt" "a@x.com" "second entry" AuditStatus.blocked AuditStatus.failed
    1000 1001 (by decide)
  exact ⟨by decide, h.1.trans h.2.1, h.2.2⟩

/-! ### Claim C6, counterexample part -/

/-- Five matching attempts whose first entry in storage order is not the
oldest one. -/
def c6Attempts : List LoginAttempt :=
  [⟨100, "a"⟩, ⟨0, "a"⟩, ⟨100, "a"⟩, ⟨100, "a"⟩, ⟨100, "a"⟩]

/-- C6 (counterexample): on an attempt list that is not sorted by
timestamp, `checkRateLimit` computes `retryAfter` from the first matching
entry in storage order (timestamp 100), not from the oldest matching entry
(timestamp 0) as the claim states, so the two disagree at `now = 200`. -/
theorem c6_counterexample :
    checkRateLimit c6Attempts "a" 200 ≠ specRateCheck c6Attempts "a" 200 := by
  decide

/-! ### Claim C8 -/

/-- C8: the refresh interval of `setupTokenRefresh` is 45 minutes, i.e. the
60-minute token lifetime minus the 15-minute buffer, the first refresh for a
session issued at `t0` fires at the 45-minute mark, and under normal
operation the token held at any time `t` before (or after) the 60-minute
expiry of the original token is itself unexpired. -/
theorem c8_refresh_before_expiry :
    refreshDelayMs = tokenLifetimeMs - refreshBufferMs ∧
    (∀ t0 : Nat, firstRefreshTime t0 = t0 + (tokenLifetimeMs - refreshBufferMs)) ∧
    ∀ t0 t : Nat, t0 ≤ t → t < availableTokenExpiry t0 t := by
  refine ⟨by decide, fun t0 => rfl, fun t0 t h => ?_⟩
  unfold availableTokenExpiry lastTokenIssueTime tokenLifetimeMs refreshDelayMs
  have h1 := Nat.div_add_mod (t - t0) 2700000
  have h2 : (t - t0) % 2700000 < 2700000 := Nat.mod_lt _ (by norm_num)
  omega

/-- Witness for C8: at `t = 50` minutes into a session issued at `t0 = 0`,
the available token is not yet expired. -/
theorem c8_witness : (0 : Nat) ≤ 3000000 ∧ 3000000 < availableTokenExpiry 0 3000000 :=
  ⟨by decide, c8_refresh_before_expiry.2.2 0 3000000 (by decide)⟩

/-! ### Claim C10 -/

/-- C10: whenever the Google popup verifies an identity that passes the
env allow-list check and no admin document exists for its uid, the login
succeeds and an admin document with role `admin`, `isActive = true`,
`loginAttempts = 0`, `isLocked = false` is created for it. -/
theorem c10_first_google_login_provisions_admin
    (api : FirebaseAuthApi) (uid gmail name : String) (env : Option String)
    (w : World) (now : Nat)
    (henv : ∀ al, env = some al → gmail = al)
    (habsent : getDocList w.db.admins uid = none) :
    (loginWithGoogle api (.ok uid gmail name) env w now).1 =
      .ok { user := firstTimeGoogleAdmin gmail name now, token := api.idToken uid } ∧
    getDocList (loginWithGoogle api (.ok uid gmail name) env w now).2.db.admins uid =
      some (firstTimeGoogleAdmin gmail name now) ∧
    (firstTimeGoogleAdmin gmail name now).role = .admin ∧
    (firstTimeGoogleAdmin gmail name now).isActive = true ∧
    (firstTimeGoogleAdmin gmail name now).loginAttempts = 0 ∧
    (firstTimeGoogleAdmin gmail name now).isLocked = false := by
  cases env with
  | none =>
    simp only [loginWithGoogle, googleTryBody]
    simp [habsent, setAdminDoc, createAuditLog, getDocList_setDocList_self,
      firstTimeGoogleAdmin]
  | some al =>
    have hg : gmail = al := henv al rfl
    subst hg
    simp only [loginWithGoogle, googleTryBody]
    simp [habsent, setAdminDoc, createAuditLog, getDocList_setDocList_self,
      firstTimeGoogleAdmin]

/-- Witness for C10: a first-time Google login with no env restriction and
an empty directory succeeds as a fresh admin. -/
theorem c10_witness :
    getDocList (mkWorld []).db.admins "uid-9" = none ∧
    (loginWithGoogle apiUid1 (.ok "uid-9" "g@x.com" "") none (mkWorld []) 77).1 =
      .ok { user := firstTimeGoogleAdmin "g@x.com" "" 77, token := "tok" } := by
  have h := c10_first_google_login_provisions_admin apiUid1 "uid-9" "g@x.com" "" none
    (mkWorld []) 77 (fun al hal => Option.noConfusion hal) rfl
  exact ⟨rfl, h.1⟩

/-! ### Claim C3 -/

/-- A world whose only account is under an active lock until ms 900000. -/
def lockedWorld : World := mkWorld [("uid-1", lockedAccount)]

/-- C3 (counterexample): at time 0 the sample account's lock is active
(`lockedUntil = 900000`), and `loginWithEmail` duly fails with the Locked
error carrying the 15 remaining minutes — but `loginWithGoogle` for the
same account succeeds, so the federated path does not share the password
path's lock behaviour. -/
theorem c3_counterexample :
    (loginWithGoogle apiUid1 (.ok "uid-1" "g@x.com" "G") none lockedWorld 0).1 =
      .ok { user := { lockedAccount with lastLogin := some 0 }, token := "tok" } ∧
    (loginWithEmail apiUid1 lockedWorld allowedAdminEmail "correct-password" 0).1 =
      .error (.locked 15) := by
  constructor <;> rfl

/-- C3 (amended): `loginWithGoogle` never consults the lock state: for any
existing, active account — whatever `isLocked` and `lockedUntil` hold — a
federated login that passes the env allow-list check succeeds; only the
allow-list and `isActive` gate this path, so its result differs from
`loginWithEmail` exactly on locked accounts. -/
theorem c3_google_no_lock_check (api : FirebaseAuthApi) (uid gmail name : String)
    (env : Option String) (w : World) (now : Nat) (a : AdminUser)
    (henv : ∀ al, env = some al → gmail = al)
    (hget : getDocList w.db.admins uid = some a)
    (hactive : a.isActive = true) :
    (loginWithGoogle api (.ok uid gmail name) env w now).1 =
      .ok { user := { a with lastLogin := some now }, token := api.idToken uid } := by
  cases env with
  | none =>
    simp only [loginWithGoogle, googleTryBody]
    simp [hget, hactive]
  | some al =>
    have hg : gmail = al := henv al rfl
    subst hg
    simp only [loginWithGoogle, googleTryBody]
    simp [hget, hactive]

/-- Witness for C3's amended theorem: the locked sample account still
logs in through Google. -/
theorem c3_amended_witness :
    getDocList lockedWorld.db.admins "uid-1" = some lockedAccount ∧
    lockedAccount.isActive = true ∧
    lockedAccount.isLocked = true ∧
    lockedAccount.lockedUntil = some 900000 ∧
    (loginWithGoogle apiUid1 (.ok "uid-1" "g@x.com" "G") none lockedWorld 5).1 =
      .ok { user := { lockedAccount with lastLogin := some 5 }, token := "tok" } := by
  have h := c3_google_no_lock_check apiUid1 "uid-1" "g@x.com" "G" none lockedWorld 5
    lockedAccount (fun al hal => Option.noConfusion hal) rfl rfl
  exact ⟨rfl, rfl, rfl, rfl, h⟩

/-! ### Claim C4, counterexample part -/

/-- A world whose only account carries three recorded failed attempts. -/
def attemptsWorld : World := mkWorld [("uid-1", attemptsAccount)]

/-- C4 (counterexample): a successful Google authentication for an account
with three recorded failed attempts succeeds yet leaves
`loginAttempts = 3` in the persisted record — not every successful
authentication resets the counter to 0. -/
theorem c4_counterexample :
    resultIsOk (loginWithGoogle apiUid1 (.ok "uid-1" "g@x.com" "G") none attemptsWorld 0).1
      = true ∧
    getDocList (loginWithGoogle apiUid1 (.ok "uid-1" "g@x.com" "G") none attemptsWorld 0).2.db.admins
        "uid-1"
      = some { attemptsAccount with lastLogin := some 0, updatedAt := 0 } ∧
    attemptsAccount.loginAttempts = 3 := by
  refine ⟨rfl, rfl, rfl⟩

/-! ### Claim C7 -/

/-- C7 (counterexample): with the env allow-list unset, the verified email
`other@gmail.com` is rejected by the password path (hardcoded allow-list)
yet accepted by the federated path — the two paths are not governed by one
configured email value. -/
theorem c7_counterexample :
    (loginWithEmail apiOther (mkWorld []) "other@gmail.com" "pw" 0).1 =
      .error (.accessDenied allowedAdminEmail) ∧
    resultIsOk (loginWithGoogle apiOther (.ok "uid-2" "other@gmail.com" "O") none
        (mkWorld []) 0).1
      = true := by
  constructor <;> rfl

/-- C7 (amended): each path enforces its own allow-list: `loginWithEmail`
rejects (and signs out) any login email other than the hardcoded
`admin@ashraffurnitures.com` even after successful credential verification,
while `loginWithGoogle` rejects (and signs out) verified emails differing
from the separately configured `VITE_ADMIN_EMAIL` — and only when that
variable is set.  The two values are independent. -/
theorem c7_two_independent_allowlists
    (api : FirebaseAuthApi) (w : World) (email pw : String) (now : Nat)
    (uid uemail : String)
    (hsign : api.signIn email pw = .ok uid uemail)
    (hne : email ≠ allowedAdminEmail) :
    ((loginWithEmail api w email pw now).1 = .error (.accessDenied allowedAdminEmail) ∧
      (loginWithEmail api w email pw now).2.authUser = none) ∧
    ∀ (uid2 gmail nm al : String) (w2 : World) (now2 : Nat), gmail ≠ al →
      (loginWithGoogle api (.ok uid2 gmail nm) (some al) w2 now2).1 =
        .error (.accessDenied al) ∧
      (loginWithGoogle api (.ok uid2 gmail nm) (some al) w2 now2).2.authUser = none := by
  constructor
  · simp only [loginWithEmail, hsign, emailTryBody]
    simp [hne, signOut, createAuditLog]
  · intro uid2 gmail nm al w2 now2 hg
    simp only [loginWithGoogle, googleTryBody]
    simp [hg, signOut, createAuditLog]

/-- Witness for C7's amended theorem: a non-allow-listed email is rejected
on the password path, and a mismatching env value rejects on the Google
path. -/
theorem c7_amended_witness :
    apiOther.signIn "other@gmail.com" "pw" = .ok "uid-2" "other@gmail.com" ∧
    "other@gmail.com" ≠ allowedAdminEmail ∧
    (loginWithEmail apiOther (mkWorld []) "other@gmail.com" "pw" 3).1 =
      .error (.accessDenied allowedAdminEmail) ∧
    (loginWithGoogle apiOther (.ok "uid-2" "g2@x.com" "O") (some "env@x.com")
        (mkWorld []) 3).1 = .error (.accessDenied "env@x.com") := by
  have h := c7_two_independent_allowlists apiOther (mkWorld []) "other@gmail.com" "pw" 3
    "uid-2" "other@gmail.com" rfl (by decide)
  exact ⟨rfl, by decide, h.1.1, (h.2 "uid-2" "g2@x.com" "O" "env@x.com" (mkWorld []) 3 (by decide)).1⟩

/-! ### Claim C6, amended part -/

/-- Folding `min` of the timestamps over a list bounded below by `m`
returns `m` itself. -/
theorem foldl_min_timestamp_eq (xs : List LoginAttempt) (m : Nat)
    (h : ∀ a ∈ xs, m ≤ a.timestamp) :
    xs.foldl (fun acc a => min acc a.timestamp) m = m := by
  induction xs generalizing m with
  | nil => rfl
  | cons x xs ih =>
    have hx : m ≤ x.timestamp := h x (List.mem_cons_self _ _)
    rw [List.foldl_cons, Nat.min_eq_left hx]
    exact ih m (fun a ha => h a (List.mem_cons_of_mem _ ha))

/-- C6 (amended): `checkRateLimit` is a pure read that discards entries
older than the 15-minute window, counts the matches for the key, and at
≥ 5 matches refuses with `retryAfter` computed from the FIRST matching
entry in storage order.  Since `recordLoginAttempt` appends with
non-decreasing clock values, every stored list is timestamp-sorted, and on
such lists the first matching entry is the oldest, so the check coincides
with the specification's description. -/
theorem c6_check_matches_spec_on_sorted (attempts : List LoginAttempt)
    (email : String) (now : Nat)
    (hs : attempts.Pairwise (fun a b => a.timestamp ≤ b.timestamp)) :
    checkRateLimit attempts email now = specRateCheck attempts email now := by
  unfold checkRateLimit specRateCheck
  have hsort :
      ((attempts.filter
          (fun a => (now : Int) - (a.timestamp : Int) < (rateLimitWindowMs : Int))).filter
        (fun a => a.email = email)).Pairwise (fun a b => a.timestamp ≤ b.timestamp) :=
    hs.sublist ((List.filter_sublist _).trans (List.filter_sublist _))
  cases hl :
      (attempts.filter
        (fun a => (now : Int) - (a.timestamp : Int) < (rateLimitWindowMs : Int))).filter
        (fun a => a.email = email) with
  | nil => simp [hl]
  | cons x xs =>
    rw [hl] at hsort
    have hmin : xs.foldl (fun acc a => min acc a.timestamp) x.timestamp = x.timestamp :=
      foldl_min_timestamp_eq xs x.timestamp (List.pairwise_cons.mp hsort).1
    simp [hl, hmin]

/-- Witness for C6's amended theorem: on a sorted attempt list with five
matches the code's check equals the specification's description. -/
theorem c6_amended_witness :
    fiveAttempts.Pairwise (fun a b => a.timestamp ≤ b.timestamp) ∧
    checkRateLimit fiveAttempts allowedAdminEmail 600 =
      specRateCheck fiveAttempts allowedAdminEmail 600 :=
  ⟨by decide, c6_check_matches_spec_on_sorted fiveAttempts allowedAdminEmail 600 (by decide)⟩

/-! ### Claim C2 -/

/-- Errors thrown inside `loginWithEmail`'s `try` block: these carry no
Firebase error code, so the `catch` re-logs them through the catch-all
branch. -/
def isTryError : LoginError → Bool
| .accessDenied _ => true
| .notAdmin => true
| .inactive => true
| .locked _ => true
| _ => false

/-- Number of audit entries each `loginWithEmail` outcome writes: one on
success or on the wrong-password paths, two when an error was thrown
inside the `try` block (the specific entry plus the catch-all re-log). -/
def expectedAuditWrites : Except LoginError LoginResponse → Nat
| .ok _ => 1
| .error e => if isTryError e then 2 else 1

theorem emailTryBody_writes (api : FirebaseAuthApi) (w : World)
    (uid uemail email : String) (now : Nat) :
    (emailTryBody api w uid uemail email now).2.auditWrites.length
      = w.auditWrites.length + 1 ∧
    ∀ e, (emailTryBody api w uid uemail email now).1 = Except.error e →
      isTryError e = true := by
  unfold emailTryBody emailSuccessPath
  dsimp only
  split
  · split
    · simp [signOut, createAuditLog, updateAdminDoc, isTryError]
    · split
      · split
        · split
          · simp [signOut, createAuditLog, updateAdminDoc, isTryError]
          · simp [signOut, createAuditLog, updateAdminDoc, isTryError]
        · simp [signOut, createAuditLog, updateAdminDoc, isTryError]
      · simp [signOut, createAuditLog, updateAdminDoc, isTryError]
  · simp [signOut, createAuditLog, updateAdminDoc, isTryError]

theorem handleWrongPassword_writes (w : World) (email : String) (now : Nat) :
    (handleWrongPassword w email now).2.auditWrites.length
      = w.auditWrites.length + 1 ∧
    ∀ e, (handleWrongPassword w email now).1 = Except.error e →
      isTryError e = false := by
  unfold handleWrongPassword
  split
  · dsimp only
    split
    · simp [createAuditLog, updateAdminDoc, isTryError]
    · simp [createAuditLog, updateAdminDoc, isTryError]
  · simp [createAuditLog, isTryError]

/-- C2 (amended): the success and wrong-password paths of `loginWithEmail`
write exactly one audit entry, but every error thrown inside its `try`
block (allow-list rejection, missing admin record, inactive account,
active lock) writes two — the specific entry plus the catch-all re-log; a
block by the client-side rate limiter writes none; `logout` writes one
entry only when a signed-in user with a non-empty email exists. -/
theorem c2_audit_write_counts (api : FirebaseAuthApi) (w : World)
    (email password : String) (now : Nat) :
    ((loginWithEmail api w email password now).2.auditWrites.length
      = w.auditWrites.length
        + expectedAuditWrites (loginWithEmail api w email password now).1) ∧
    (∀ attempts : List LoginAttempt, (checkRateLimit attempts email now).1 = false →
      (handleLogin api w attempts email password now).2.1.auditWrites.length
        = w.auditWrites.length) ∧
    ((serviceLogout w now).auditWrites.length
      = w.auditWrites.length +
        match w.authUser with
        | some (_, em) => if em = "" then 0 else 1
        | none => 0) := by
  refine ⟨?_, ?_, ?_⟩
  · cases hs : api.signIn email password with
    | ok uid uemail =>
      have hw := emailTryBody_writes api w uid uemail email now
      cases hr : emailTryBody api w uid uemail email now with
      | mk r wE =>
        rw [hr] at hw
        cases r with
        | ok resp =>
          simp only [loginWithEmail, hs, hr]
          simpa [expectedAuditWrites] using hw.1
        | error e =>
          have he : isTryError e = true := hw.2 e rfl
          simp only [loginWithEmail, hs, hr]
          simp [createAuditLog, expectedAuditWrites, he, hw.1]
    | wrongPassword =>
      have hw := handleWrongPassword_writes w email now
      cases hr : handleWrongPassword w email now with
      | mk r wE =>
        rw [hr] at hw
        cases r with
        | ok resp =>
          simp only [loginWithEmail, hs, hr]
          simpa [expectedAuditWrites] using hw.1
        | error e =>
          have he : isTryError e = false := hw.2 e rfl
          simp only [loginWithEmail, hs, hr]
          simp [expectedAuditWrites, he, hw.1]
    | otherError msg =>
      simp [loginWithEmail, hs, createAuditLog, expectedAuditWrites, isTryError]
  · intro attempts hrl
    by_cases h1 : jsTrim email = ""
    · simp [handleLogin, h1]
    · by_cases h2 : password = ""
      · simp [handleLogin, h1, h2]
      · cases hc : checkRateLimit attempts email now with
        | mk b rem =>
          rw [hc] at hrl
          simp only at hrl
          subst hrl
          simp [handleLogin, h1, h2, hc]
  · unfold serviceLogout
    cases hu : w.authUser with
    | none => simp [signOut]
    | some p =>
      obtain ⟨u, em⟩ := p
      by_cases he : em = ""
      · simp [he, signOut]
      · simp [he, signOut, createAuditLog]

/-- C2 (counterexample): a rate-limiter block returns without writing any
audit entry (zero, not one), and a login blocked by an active lock writes
two entries (the lock entry plus the catch-all re-log). -/
theorem c2_counterexample :
    (handleLogin apiUid1 (mkWorld [("uid-1", sampleAccount)]) fiveAttempts
        allowedAdminEmail "pw" 600).1 = .rateLimited 899500 ∧
    (handleLogin apiUid1 (mkWorld [("uid-1", sampleAccount)]) fiveAttempts
        allowedAdminEmail "pw" 600).2.1.auditWrites.length = 0 ∧
    (loginWithEmail apiUid1 lockedWorld allowedAdminEmail "correct-password" 0).2.auditWrites.length
      = 2 := by
  refine ⟨rfl, rfl, rfl⟩

/-- Witness for C2's amended theorem: concrete write counts for a
successful login and a rate-limited submission. -/
theorem c2_amended_witness :
    (loginWithEmail apiUid1 (mkWorld [("uid-1", sampleAccount)]) allowedAdminEmail "pw" 600).2.auditWrites.length
      = 0 + expectedAuditWrites
          (loginWithEmail apiUid1 (mkWorld [("uid-1", sampleAccount)]) allowedAdminEmail "pw" 600).1 ∧
    (handleLogin apiUid1 (mkWorld [("uid-1", sampleAccount)]) fiveAttempts
        allowedAdminEmail "pw" 600).2.1.auditWrites.length = 0 := by
  have h := c2_audit_write_counts apiUid1 (mkWorld [("uid-1", sampleAccount)])
    allowedAdminEmail "pw" 600
  exact ⟨h.1, h.2.1 fiveAttempts (by decide)⟩

/-! ### Claim C9 -/

/-- The runtime's live intervals are exactly the one stored in the
module-level `tokenRefreshInterval` variable. -/
def timerInv (s : ClientState) : Prop :=
  s.liveTimers = (match s.refreshInterval with | some id => [id] | none => [])

theorem timerInv_initial : timerInv initialClientState := rfl

theorem timerInv_clearTokenRefresh (s : ClientState) (h : timerInv s) :
    (clearTokenRefresh s).refreshInterval = none ∧ (clearTokenRefresh s).liveTimers = [] := by
  unfold timerInv at h
  unfold clearTokenRefresh
  cases hr : s.refreshInterval with
  | none =>
    rw [hr] at h
    exact ⟨hr, h⟩
  | some id =>
    rw [hr] at h
    simp [h]

theorem timerInv_setupTokenRefresh (s : ClientState) (h : timerInv s) :
    timerInv (setupTokenRefresh s) := by
  unfold timerInv at *
  unfold setupTokenRefresh
  cases hr : s.refreshInterval with
  | none =>
    rw [hr] at h
    simp [h]
  | some id =>
    rw [hr] at h
    simp [h]

theorem timerInv_step (s : ClientState) (op : ClientOp) (h : timerInv s) :
    timerInv (clientStep s op) := by
  cases op with
  | loginOk u tok => exact timerInv_setupTokenRefresh _ h
  | loginFailed => exact h
  | logout =>
    have hc := timerInv_clearTokenRefresh s h
    unfold timerInv
    simp [clientStep, hc.1, hc.2]
  | authSignedIn u tok => exact timerInv_setupTokenRefresh _ h
  | authSignedOut =>
    have hc := timerInv_clearTokenRefresh s h
    unfold timerInv
    simp [clientStep, hc.1, hc.2]
  | timerFire id tok =>
    unfold timerInv at *
    simp only [clientStep]
    split <;> exact h

theorem timerInv_run (ops : List ClientOp) : timerInv (clientRun ops) := by
  suffices h : ∀ s, timerInv s → timerInv (ops.foldl clientStep s) from
    h _ timerInv_initial
  induction ops with
  | nil => exact fun s h => h
  | cons op ops ih => exact fun s h => ih _ (timerInv_step s op h)

/-- A client state with no timer, no live interval and no token. -/
def deadState (s : ClientState) : Prop :=
  s.refreshInterval = none ∧ s.liveTimers = [] ∧ s.token = none

theorem dead_step (s : ClientState) (op : ClientOp) (h : deadState s)
    (hop : op.isLoginLike = false) :
    deadState (clientStep s op) ∧ (clientStep s op).refreshCount = s.refreshCount := by
  obtain ⟨h1, h2, h3⟩ := h
  cases op with
  | loginOk u tok => simp [ClientOp.isLoginLike] at hop
  | authSignedIn u tok => simp [ClientOp.isLoginLike] at hop
  | loginFailed => exact ⟨⟨h1, h2, h3⟩, rfl⟩
  | logout => simp [clientStep, clearTokenRefresh, h1, h2, deadState]
  | authSignedOut => simp [clientStep, clearTokenRefresh, h1, h2, deadState]
  | timerFire id tok => simp [clientStep, deadState, h1, h2, h3]

theorem dead_run (ops : List ClientOp) : ∀ s, deadState s →
    (∀ op ∈ ops, op.isLoginLike = false) →
    deadState (ops.foldl clientStep s) ∧
    (ops.foldl clientStep s).refreshCount = s.refreshCount := by
  induction ops with
  | nil => exact fun s h _ => ⟨h, rfl⟩
  | cons op ops ih =>
    intro s h hops
    have h1 := dead_step s op h (hops op (List.mem_cons_self _ _))
    have h2 := ih (clientStep s op) h1.1 (fun o ho => hops o (List.mem_cons_of_mem _ ho))
    exact ⟨h2.1, h2.2.trans h1.2⟩

theorem logout_dead (s : ClientState) (h : timerInv s) :
    deadState (clientStep s .logout) ∧ (clientStep s .logout).user = none ∧
    (clientStep s .logout).isAuthenticated = false := by
  have hc := timerInv_clearTokenRefresh s h
  exact ⟨⟨hc.1, hc.2, rfl⟩, rfl, rfl⟩

/-- C9: from any reachable client state, `logout` leaves no refresh timer
(the interval id is cleared and no interval is live), discards the local
session (`user`, `token`, `isAuthenticated`), and afterwards — under any
further events that are not a new login — no refresh ever fires
(`refreshCount` stays put) and no token is reissued; moreover every
reachable state has at most one live timer, across arbitrary login/logout
cycles. -/
theorem c9_logout_cancels_refresh (ops ops2 : List ClientOp)
    (h2 : ∀ op ∈ ops2, op.isLoginLike = false) :
    ((clientStep (clientRun ops) .logout).refreshInterval = none ∧
     (clientStep (clientRun ops) .logout).liveTimers = [] ∧
     (clientStep (clientRun ops) .logout).user = none ∧
     (clientStep (clientRun ops) .logout).token = none ∧
     (clientStep (clientRun ops) .logout).isAuthenticated = false) ∧
    ((ops2.foldl clientStep (clientStep (clientRun ops) .logout)).token = none ∧
     (ops2.foldl clientStep (clientStep (clientRun ops) .logout)).refreshCount =
       (clientStep (clientRun ops) .logout).refreshCount) ∧
    ∀ ops3 : List ClientOp, (clientRun ops3).liveTimers.length ≤ 1 := by
  have hinv := timerInv_run ops
  have hd := logout_dead (clientRun ops) hinv
  refine ⟨⟨hd.1.1, hd.1.2.1, hd.2.1, hd.1.2.2, hd.2.2⟩, ?_, ?_⟩
  · have hrun := dead_run ops2 _ hd.1 h2
    exact ⟨hrun.1.2.2, hrun.2⟩
  · intro ops3
    have h3 := timerInv_run ops3
    unfold timerInv at h3
    rw [h3]
    cases (clientRun ops3).refreshInterval <;> simp

/-- Witness for C9: after a login and a logout, a stray timer firing
leaves the token absent and the refresh count at zero. -/
theorem c9_witness :
    (∀ op ∈ [ClientOp.timerFire 0 2], op.isLoginLike = false) ∧
    ([ClientOp.timerFire 0 2].foldl clientStep
        (clientStep (clientRun [ClientOp.loginOk "u" 1]) .logout)).token = none ∧
    ([ClientOp.timerFire 0 2].foldl clientStep
        (clientStep (clientRun [ClientOp.loginOk "u" 1]) .logout)).refreshCount =
      (clientStep (clientRun [ClientOp.loginOk "u" 1]) .logout).refreshCount := by
  have h := c9_logout_cancels_refresh [ClientOp.loginOk "u" 1] [ClientOp.timerFire 0 2]
    (by decide)
  exact ⟨by decide, h.2.1.1, h.2.1.2⟩

/-! ### Claim C4, amended part -/

theorem emailTryBody_success_resets (api : FirebaseAuthApi) (w : World)
    (uid uemail email : String) (now : Nat) (a : AdminUser)
    (resp : LoginResponse) (wE : World)
    (hget : getDocList w.db.admins uid = some a)
    (hinv : a.isLocked = true → a.lockedUntil ≠ none)
    (hE : emailTryBody api w uid uemail email now = (.ok resp, wE)) :
    ∃ a', getDocList wE.db.admins uid = some a' ∧
      a'.loginAttempts = 0 ∧ a'.isLocked = false := by
  unfold emailTryBody emailSuccessPath at hE
  by_cases hallow : email = allowedAdminEmail
  · rw [if_pos hallow] at hE
    dsimp only at hE
    rw [hget] at hE
    dsimp only at hE
    by_cases hact : a.isActive = true
    · rw [if_pos hact] at hE
      cases hL : a.isLocked with
      | false =>
        rw [hL] at hE
        dsimp only at hE
        injection hE with hE1 hE2
        subst hE2
        refine ⟨{ a with loginAttempts := 0, lastLogin := some now, updatedAt := now }, ?_, rfl, hL⟩
        simp [createAuditLog, updateAdminDoc, getDocList_updateDocList_self, hget]
      | true =>
        rw [hL] at hE
        cases hU : a.lockedUntil with
        | none => exact absurd hU (hinv hL)
        | some u =>
          rw [hU] at hE
          dsimp only at hE
          by_cases hlt : now < u
          · simp [hlt] at hE
          · rw [if_neg hlt] at hE
            injection hE with hE1 hE2
            subst hE2
            refine ⟨{ a with isLocked := false, lockedUntil := none, loginAttempts := 0, lastLogin := some now, updatedAt := now }, ?_, rfl, rfl⟩
            simp [createAuditLog, updateAdminDoc, getDocList_updateDocList_self, hget]
    · simp [hact] at hE
  · simp [hallow] at hE

/-- C4 (amended): every successful email/password login resets
`loginAttempts` to 0 in the persisted record and — for prior records
satisfying the data-model invariant `isLocked ⇒ lockedUntil ≠ null` —
leaves `isLocked = false`, whatever the prior counter was; successful
federated logins, by contrast, do not touch the counter. -/
theorem c4_email_success_resets (api : FirebaseAuthApi) (w : World)
    (email password : String) (now : Nat) (uid uemail : String) (a : AdminUser)
    (resp : LoginResponse) (w' : World)
    (hsign : api.signIn email password = .ok uid uemail)
    (hget : getDocList w.db.admins uid = some a)
    (hinv : a.isLocked = true → a.lockedUntil ≠ none)
    (hrun : loginWithEmail api w email password now = (.ok resp, w')) :
    ∃ a', getDocList w'.db.admins uid = some a' ∧
      a'.loginAttempts = 0 ∧ a'.isLocked = false := by
  unfold loginWithEmail at hrun
  rw [hsign] at hrun
  dsimp only at hrun
  cases hE : emailTryBody api w uid uemail email now with
  | mk r wE =>
    rw [hE] at hrun
    cases r with
    | error e => simp at hrun
    | ok resp0 =>
      dsimp only at hrun
      injection hrun with hr1 hr2
      subst hr2
      exact emailTryBody_success_resets api w uid uemail email now a resp0 wE hget hinv hE

/-- Witness for C4's amended theorem: a successful login for the account
with three failed attempts leaves a persisted record with
`loginAttempts = 0` and `isLocked = false`. -/
theorem c4_amended_witness :
    apiUid1.signIn allowedAdminEmail "pw" = .ok "uid-1" allowedAdminEmail ∧
    getDocList attemptsWorld.db.admins "uid-1" = some attemptsAccount ∧
    ∃ a', getDocList
        (loginWithEmail apiUid1 attemptsWorld allowedAdminEmail "pw" 9).2.db.admins "uid-1"
      = some a' ∧ a'.loginAttempts = 0 ∧ a'.isLocked = false := by
  refine ⟨rfl, rfl, ?_⟩
  exact c4_email_success_resets apiUid1 attemptsWorld allowedAdminEmail "pw" 9
    "uid-1" allowedAdminEmail attemptsAccount _ _ rfl rfl (by decide) rfl

end AshrafAuth
